import Mathlib

/-!
Shallow embedding of `src/Adafruit_IO/mqtt_client.py` (class `MQTTClient`):
a thin adapter over an underlying paho MQTT engine.  Pure functions model
the adapter's methods; the mutable object is an explicit state record, and
the calls the adapter makes into the underlying engine (connect, subscribe,
publish, disconnect) as well as the invocations of the user callbacks
(`on_connect`, `on_disconnect`, `on_message`) are returned as explicit event
lists.  A Python `raise` is modelled by an `Option AdapterError` (or
`Except`) component: `some e` means the method raised `e` after performing
the state updates and callback invocations listed before it.
-/

namespace AdafruitIO

/-- Python byte strings (`bytes`) as lists of byte values. -/
abbrev Bytes := List Nat

/-- UTF-8 decoding of a byte list, one codepoint at a time, as Python's
`bytes.decode('utf-8')`: `none` models a `UnicodeDecodeError` on any invalid
sequence (stray continuation byte, truncated sequence, overlong encoding,
surrogate codepoint, or codepoint above U+10FFFF). -/
def utf8DecodeChars : List Nat → Option (List Char)
  | [] => some []
  | b :: rest =>
    if b < 0x80 then
      (utf8DecodeChars rest).map (fun cs => Char.ofNat b :: cs)
    else if b < 0xC2 then
      -- 0x80..0xBF: unexpected continuation byte; 0xC0/0xC1: overlong lead
      none
    else if b < 0xE0 then
      match rest with
      | b1 :: rest2 =>
        if 0x80 ≤ b1 ∧ b1 < 0xC0 then
          (utf8DecodeChars rest2).map
            (fun cs => Char.ofNat ((b - 0xC0) * 64 + (b1 - 0x80)) :: cs)
        else none
      | [] => none
    else if b < 0xF0 then
      match rest with
      | b1 :: b2 :: rest2 =>
        if (0x80 ≤ b1 ∧ b1 < 0xC0) ∧ (0x80 ≤ b2 ∧ b2 < 0xC0) then
          let cp := (b - 0xE0) * 4096 + (b1 - 0x80) * 64 + (b2 - 0x80)
          if cp < 0x800 ∨ (0xD800 ≤ cp ∧ cp < 0xE000) then none
          else (utf8DecodeChars rest2).map (fun cs => Char.ofNat cp :: cs)
        else none
      | _ => none
    else if b < 0xF5 then
      match rest with
      | b1 :: b2 :: b3 :: rest2 =>
        if (0x80 ≤ b1 ∧ b1 < 0xC0) ∧ (0x80 ≤ b2 ∧ b2 < 0xC0) ∧
            (0x80 ≤ b3 ∧ b3 < 0xC0) then
          let cp := (b - 0xF0) * 262144 + (b1 - 0x80) * 4096 +
            (b2 - 0x80) * 64 + (b3 - 0x80)
          if cp < 0x10000 ∨ 0x110000 ≤ cp then none
          else (utf8DecodeChars rest2).map (fun cs => Char.ofNat cp :: cs)
        else none
      | _ => none
    else none

/-- `bytes.decode('utf-8')` producing a `String`. -/
def utf8Decode (bs : Bytes) : Option String :=
  (utf8DecodeChars bs).map (fun cs => String.mk cs)

/-- Helper for `pySplit`: walks the character list accumulating the current
segment (in reverse), emitting a segment at each separator. -/
def splitOnCharAux : List Char → Char → List Char → List (List Char)
  | [], _, acc => [acc.reverse]
  | c :: rest, sep, acc =>
    if c = sep then acc.reverse :: splitOnCharAux rest sep []
    else splitOnCharAux rest sep (c :: acc)

/-- Python `str.split(sep)` for a single-character separator: splits at
every occurrence of `sep`, keeping empty segments, and `"".split(sep)`
is `[""]`.  This models `msg.topic.split('/')` in the source. -/
def pySplit (s : String) (sep : Char) : List String :=
  (splitOnCharAux s.data sep []).map (fun cs => String.mk cs)

/-- An incoming MQTT message as delivered by the underlying engine to the
message hook: a topic string and a payload that may be absent (`None`). -/
structure Msg where
  topic : String
  payload : Option Bytes
  deriving Repr, DecidableEq

/-- A user-callback invocation performed by the adapter.  Every callback
also receives the adapter instance (`self`) as its first argument; that
argument is implicit here since the events are emitted by that instance. -/
inductive CbEvent where
  | onConnect : CbEvent
  | onDisconnect : CbEvent
  | onMessage (feedOrTopic : String) (payload : String) : CbEvent
  deriving Repr, DecidableEq

/-- A request the adapter forwards to the underlying MQTT engine
(`self._client`). -/
inductive Request where
  | connect (host : String) (port : Nat) (keepalive : Nat) : Request
  | disconnect : Request
  | subscribe (topic : String) (qos : Nat) : Request
  | publish (topic : String) (payload : String) (qos : Nat) : Request
  deriving Repr, DecidableEq

/-- The exceptions the adapter itself can raise.  The source raises
`RuntimeError` at three sites and can hit two builtin exceptions; the
constructors distinguish the sites the way the specification names them. -/
inductive AdapterError where
  /-- `RuntimeError` from `_mqtt_connect` / `connect` on a nonzero
  result code: the spec's `ConnectionError`. -/
  | connectionError (rc : Int) : AdapterError
  /-- `RuntimeError` from `_mqtt_disconnect` on an unexpected disconnect:
  the spec's `DisconnectError`. -/
  | disconnectError (rc : Int) : AdapterError
  /-- Python `IndexError` from `parsed_topic[2]` on a malformed topic. -/
  | indexError : AdapterError
  /-- Python `UnicodeDecodeError` from `msg.payload.decode('utf-8')`. -/
  | decodeError : AdapterError
  deriving Repr, DecidableEq

/-- `KEEP_ALIVE_SEC = 3600` (module-level constant). -/
def KEEP_ALIVE_SEC : Nat := 3600

/-- The adapter state: the fields `MQTTClient.__init__` stores on `self`.
The three callback slots are initialized to `None` in the source and only
ever tested for being set before invocation, so they are modelled as
booleans ("a callback is registered"); their invocations are emitted as
`CbEvent`s. -/
structure MQTTClient where
  username : String
  service_host : String
  service_port : Nat
  topic_fmt : String
  on_connect : Bool
  on_disconnect : Bool
  on_message : Bool
  connected : Bool
  disconnect_reason : Option Int
  deriving Repr, DecidableEq

namespace MQTTClient

/-- `MQTTClient.__init__`: stores the configuration and initializes the
callback slots to `None`, `self._connected = False`,
`self._disconnect_reason = None`.  (The access key, client id and instance
label are not read by any modelled operation: the key goes verbatim to the
underlying engine and the label is never read.) -/
def init (username : String) (service_host : String) (service_port : Nat)
    (topic_fmt : String) : MQTTClient :=
  { username := username
    service_host := service_host
    service_port := service_port
    topic_fmt := topic_fmt
    on_connect := false
    on_disconnect := false
    on_message := false
    connected := false
    disconnect_reason := none }

/-- `MQTTClient.is_connected`: returns `self._connected`. -/
def is_connected (s : MQTTClient) : Bool :=
  s.connected

/-- `MQTTClient._mqtt_connect(self, client, userdata, flags, rc)`: on
`rc == 0` sets `self._connected = True` and then invokes `on_connect(self)`
when registered; on nonzero `rc` raises (the raise happens before the
callback block, so no state change and no callback occur). -/
def mqtt_connect (s : MQTTClient) (rc : Int) :
    MQTTClient × List CbEvent × Option AdapterError :=
  if rc = 0 then
    ({ s with connected := true },
      (if s.on_connect then [CbEvent.onConnect] else []), none)
  else
    (s, [], some (AdapterError.connectionError rc))

/-- `MQTTClient._mqtt_disconnect(self, client, userdata, rc)`: always sets
`self._connected = False` and `self._disconnect_reason = rc`; then raises
when `rc != 0` and no `on_disconnect` callback is registered; otherwise
invokes the callback when registered. -/
def mqtt_disconnect (s : MQTTClient) (rc : Int) :
    MQTTClient × List CbEvent × Option AdapterError :=
  let s2 := { s with connected := false, disconnect_reason := some rc }
  if rc ≠ 0 ∧ s.on_disconnect = false then
    (s2, [], some (AdapterError.disconnectError rc))
  else
    (s2, (if s.on_disconnect then [CbEvent.onDisconnect] else []), none)

/-- `'' if msg.payload is None else msg.payload.decode('utf-8')`. -/
def decodePayload : Option Bytes → Option String
  | none => some ""
  | some bs => utf8Decode bs

/-- First half of `MQTTClient._mqtt_message`: the `adafruit_fmt` branch.
`msg.topic.split('/')` is `pySplit msg.topic '/'`; Python list indexing
`parsed_topic[i]` is `List.get?` with `none` raising `IndexError`.
Dispatches `on_message(self, feed, payload)` when the callback is
registered and the leading topic segment equals the configured
username. -/
def structuredDispatch (s : MQTTClient) (m : Msg) :
    Except AdapterError (List CbEvent) :=
  if s.topic_fmt = "adafruit_fmt" then
    let parsed := pySplit m.topic '/'
    match parsed.get? 0 with
    | none => Except.error AdapterError.indexError
    | some p0 =>
      if s.on_message ∧ s.username = p0 then
        match parsed.get? 2 with
        | none => Except.error AdapterError.indexError
        | some feed =>
          match decodePayload m.payload with
          | none => Except.error AdapterError.decodeError
          | some payload => Except.ok [CbEvent.onMessage feed payload]
      else Except.ok []
  else Except.ok []

/-- Second half of `MQTTClient._mqtt_message`: the unconditional dispatch
of `on_message(self, msg.topic, payload)` with the full raw topic, executed
for every topic format whenever the callback is registered. -/
def rawDispatch (s : MQTTClient) (m : Msg) :
    Except AdapterError (List CbEvent) :=
  if s.on_message then
    match decodePayload m.payload with
    | none => Except.error AdapterError.decodeError
    | some payload => Except.ok [CbEvent.onMessage m.topic payload]
  else Except.ok []

/-- `MQTTClient._mqtt_message(self, client, userdata, msg)`: the structured
branch followed by the raw dispatch; an exception in the first branch
aborts the hook before the second runs.  The adapter state is not
mutated by this method. -/
def mqtt_message (s : MQTTClient) (m : Msg) :
    Except AdapterError (List CbEvent) :=
  match structuredDispatch s m with
  | Except.error e => Except.error e
  | Except.ok evs1 =>
    match rawDispatch s m with
    | Except.error e => Except.error e
    | Except.ok evs2 => Except.ok (evs1 ++ evs2)

/-- `MQTTClient.connect(self, **kwargs)`: returns immediately when
`self._connected` is already true; otherwise forwards a connect request
(host, port, `keepalive=KEEP_ALIVE_SEC`) to the underlying engine and
raises when the engine's immediate return code `rc` is nonzero.  `connect`
itself never mutates the adapter state (only the asynchronous connect hook
sets `_connected`). -/
def connect (s : MQTTClient) (rc : Int) :
    MQTTClient × List Request × Option AdapterError :=
  if s.connected then
    (s, [], none)
  else if rc ≠ 0 then
    (s, [Request.connect s.service_host s.service_port KEEP_ALIVE_SEC],
      some (AdapterError.connectionError rc))
  else
    (s, [Request.connect s.service_host s.service_port KEEP_ALIVE_SEC], none)

/-- `MQTTClient.disconnect(self)`: forwards a disconnect request only when
currently marked connected. -/
def disconnect (s : MQTTClient) : List Request :=
  if s.connected then [Request.disconnect] else []

/-- `MQTTClient.subscribe(self, feed_id, qos=0)`: two independent `if`
statements on the topic format, as in the source. -/
def subscribe (s : MQTTClient) (feed_id : String) (qos : Nat) :
    List Request :=
  (if s.topic_fmt = "adafruit_fmt" then
    [Request.subscribe (s.username ++ "/feeds/" ++ feed_id) qos]
  else []) ++
  (if s.topic_fmt = "rawmqtt_fmt" then
    [Request.subscribe feed_id qos]
  else [])

/-- `MQTTClient.publish(self, feed_id, value, qos=0)`: two independent
`if` statements on the topic format, as in the source; the payload is
forwarded verbatim. -/
def publish (s : MQTTClient) (feed_id : String) (value : String)
    (qos : Nat) : List Request :=
  (if s.topic_fmt = "adafruit_fmt" then
    [Request.publish (s.username ++ "/feeds/" ++ feed_id) value qos]
  else []) ++
  (if s.topic_fmt = "rawmqtt_fmt" then
    [Request.publish feed_id value qos]
  else [])

end MQTTClient

open MQTTClient

/-! Concrete clients used to instantiate the theorems below. -/

/-- A structured-mode client for user `alice` with all three callbacks
registered, in the freshly constructed (disconnected) state. -/
def aliceClient : MQTTClient :=
  { username := "alice"
    service_host := "io.adafruit.com"
    service_port := 1883
    topic_fmt := "adafruit_fmt"
    on_connect := true
    on_disconnect := true
    on_message := true
    connected := false
    disconnect_reason := none }

/-- The same client in raw-topic mode. -/
def rawAliceClient : MQTTClient :=
  { aliceClient with topic_fmt := "rawmqtt_fmt" }

/-- The same client with a topic format that is neither recognized mode. -/
def bogusFmtClient : MQTTClient :=
  { aliceClient with topic_fmt := "mqtt_fmt" }

/-- A message on topic `"alice/feeds/temp"` with payload bytes for
`"72"`. -/
def tempMsg : Msg := { topic := "alice/feeds/temp", payload := some [55, 50] }

/-- The same message with an absent (`None`) payload. -/
def absentTempMsg : Msg := { topic := "alice/feeds/temp", payload := none }

/-- A message on the malformed two-segment topic `"alice/feeds"`. -/
def shortTopicMsg : Msg := { topic := "alice/feeds", payload := some [55, 50] }

/-- Claim C1: in structured topic mode, when a message arrives whose
topic's first '/'-separated segment equals the configured username and an
on_message callback is registered (and the topic has a third segment and
the payload decodes), the callback is invoked exactly twice for that one
message: once with the extracted feed id (third topic segment) and the
decoded text, and once more with the full raw topic string and the same
decoded text. -/
theorem structured_message_double_dispatch (s : MQTTClient) (m : Msg)
    (feed text : String)
    (hfmt : s.topic_fmt = "adafruit_fmt")
    (hcb : s.on_message = true)
    (h0 : (pySplit m.topic '/')[0]? = some s.username)
    (h2 : (pySplit m.topic '/')[2]? = some feed)
    (hp : decodePayload m.payload = some text) :
    mqtt_message s m =
      Except.ok [CbEvent.onMessage feed text,
        CbEvent.onMessage m.topic text] := by
  simp [mqtt_message, structuredDispatch, rawDispatch, hfmt, hcb, h0, h2, hp]

/-- Claim C1 witness: topic `"alice/feeds/temp"`, payload bytes `[55, 50]`
(UTF-8 for `"72"`), username `alice`. -/
theorem structured_message_double_dispatch_witness :
    mqtt_message aliceClient tempMsg =
      Except.ok [CbEvent.onMessage "temp" "72",
        CbEvent.onMessage "alice/feeds/temp" "72"] :=
  structured_message_double_dispatch aliceClient tempMsg "temp" "72"
    rfl rfl (by decide) (by decide) (by decide)

/-- Claim C2 counterexample: from a freshly constructed client, two
back-to-back `connect()` calls with no intervening disconnect each forward
a connect request to the underlying engine — the second call is not a
no-op, because `connect` itself never sets the connected flag (only the
asynchronous connect hook does). -/
theorem connect_twice_counterexample :
    (MQTTClient.connect (MQTTClient.connect
        (MQTTClient.init "alice" "io.adafruit.com" 1883 "adafruit_fmt")
        0).1 0).2.1 =
      [Request.connect "io.adafruit.com" 1883 3600] := by
  decide

/-- Claim C2 (amended): a second `connect()` call is a no-op — it forwards
no connect request, raises nothing and leaves the state unchanged —
provided a successful connect-hook invocation (result code 0) has occurred
after the first call; `connect` itself does not set the connected flag, so
without that hook invocation the second call issues another connect
request. -/
theorem connect_second_call_noop_after_successful_hook
    (s : MQTTClient) (rc1 rc2 : Int) :
    MQTTClient.connect (mqtt_connect (MQTTClient.connect s rc1).1 0).1 rc2 =
      ((mqtt_connect (MQTTClient.connect s rc1).1 0).1, [], none) := by
  have h1 : (MQTTClient.connect s rc1).1 = s := by
    unfold MQTTClient.connect
    split_ifs <;> rfl
  rw [h1]
  simp [mqtt_connect, MQTTClient.connect]

/-- Claim C3: every disconnect-hook invocation with result code `rc` sets
the connected flag to false and records `rc` as the disconnect reason
(also on the error path); a DisconnectError is raised if and only if `rc`
is nonzero and no on_disconnect callback is registered; and whenever a
callback is registered it is invoked exactly once (for zero and nonzero
codes alike) and no error is raised. -/
theorem mqtt_disconnect_spec (s : MQTTClient) (rc : Int) :
    is_connected (mqtt_disconnect s rc).1 = false ∧
    (mqtt_disconnect s rc).1.disconnect_reason = some rc ∧
    ((mqtt_disconnect s rc).2.2 = some (AdapterError.disconnectError rc) ↔
      rc ≠ 0 ∧ s.on_disconnect = false) ∧
    (s.on_disconnect = true →
      (mqtt_disconnect s rc).2.1 = [CbEvent.onDisconnect] ∧
      (mqtt_disconnect s rc).2.2 = none) := by
  by_cases hrc : rc = 0 <;> by_cases hcb : s.on_disconnect = true <;>
    simp_all [mqtt_disconnect, is_connected]

/-- Claim C3 witness: instantiated at a client with a registered
on_disconnect callback and the nonzero code 5. -/
theorem mqtt_disconnect_spec_witness :
    is_connected (mqtt_disconnect aliceClient 5).1 = false ∧
    (mqtt_disconnect aliceClient 5).1.disconnect_reason = some 5 ∧
    ((mqtt_disconnect aliceClient 5).2.2 =
        some (AdapterError.disconnectError 5) ↔
      (5 : Int) ≠ 0 ∧ aliceClient.on_disconnect = false) ∧
    (aliceClient.on_disconnect = true →
      (mqtt_disconnect aliceClient 5).2.1 = [CbEvent.onDisconnect] ∧
      (mqtt_disconnect aliceClient 5).2.2 = none) :=
  mqtt_disconnect_spec aliceClient 5

/-- Claim C4: every connect-hook invocation with result code 0 makes the
connected flag true (no error is raised), and when an on_connect callback
is registered it is invoked exactly once (with the adapter instance as its
argument). -/
theorem mqtt_connect_success_spec (s : MQTTClient) :
    is_connected (mqtt_connect s 0).1 = true ∧
    (mqtt_connect s 0).2.2 = none ∧
    (s.on_connect = true →
      (mqtt_connect s 0).2.1 = [CbEvent.onConnect]) := by
  simp [mqtt_connect, is_connected]

/-- Claim C4 witness: instantiated at a client with a registered
on_connect callback. -/
theorem mqtt_connect_success_spec_witness :
    is_connected (mqtt_connect aliceClient 0).1 = true ∧
    (mqtt_connect aliceClient 0).2.2 = none ∧
    (aliceClient.on_connect = true →
      (mqtt_connect aliceClient 0).2.1 = [CbEvent.onConnect]) :=
  mqtt_connect_success_spec aliceClient

/-- Claim C5: every connect-hook invocation with a nonzero result code
raises a ConnectionError, and the connected flag remains false. -/
theorem mqtt_connect_failure_spec (s : MQTTClient) (rc : Int)
    (hrc : rc ≠ 0) (hc : is_connected s = false) :
    (mqtt_connect s rc).2.2 = some (AdapterError.connectionError rc) ∧
    is_connected (mqtt_connect s rc).1 = false := by
  simp [mqtt_connect, is_connected, hrc] at hc ⊢
  exact hc

/-- Claim C5 witness: result code 4 (bad username or password) on a
freshly constructed, disconnected client. -/
theorem mqtt_connect_failure_spec_witness :
    (mqtt_connect aliceClient 4).2.2 =
      some (AdapterError.connectionError 4) ∧
    is_connected (mqtt_connect aliceClient 4).1 = false :=
  mqtt_connect_failure_spec aliceClient 4 (by decide) rfl

/-- Claim C6: for every feed id `f` and QoS level `q`, `subscribe f q`
forwards exactly one subscribe request — for topic
`"{username}/feeds/{f}"` with QoS `q` in structured mode, and for topic
`f` unchanged (with QoS `q`) in raw mode. -/
theorem subscribe_topic_spec (s : MQTTClient) (f : String) (q : Nat) :
    (s.topic_fmt = "adafruit_fmt" →
      MQTTClient.subscribe s f q =
        [Request.subscribe (s.username ++ "/feeds/" ++ f) q]) ∧
    (s.topic_fmt = "rawmqtt_fmt" →
      MQTTClient.subscribe s f q = [Request.subscribe f q]) := by
  constructor <;> intro h <;> simp [MQTTClient.subscribe, h]

/-- Claim C6 witness: feed `"temp"`, QoS 1, in structured mode and in raw
mode. -/
theorem subscribe_topic_spec_witness :
    MQTTClient.subscribe aliceClient "temp" 1 =
      [Request.subscribe "alice/feeds/temp" 1] ∧
    MQTTClient.subscribe rawAliceClient "temp" 1 =
      [Request.subscribe "temp" 1] :=
  ⟨(subscribe_topic_spec aliceClient "temp" 1).1 rfl,
    (subscribe_topic_spec rawAliceClient "temp" 1).2 rfl⟩

/-- Claim C7: for every feed id `f` and value `v`, `publish f v q`
forwards exactly one publish request whose payload is `v` and whose topic
is `"{username}/feeds/{f}"` in structured mode and `f` unchanged in raw
mode. -/
theorem publish_topic_spec (s : MQTTClient) (f v : String) (q : Nat) :
    (s.topic_fmt = "adafruit_fmt" →
      MQTTClient.publish s f v q =
        [Request.publish (s.username ++ "/feeds/" ++ f) v q]) ∧
    (s.topic_fmt = "rawmqtt_fmt" →
      MQTTClient.publish s f v q = [Request.publish f v q]) := by
  constructor <;> intro h <;> simp [MQTTClient.publish, h]

/-- Claim C7 witness: feed `"temp"`, value `"72"`, QoS 0, in structured
mode and in raw mode. -/
theorem publish_topic_spec_witness :
    MQTTClient.publish aliceClient "temp" "72" 0 =
      [Request.publish "alice/feeds/temp" "72" 0] ∧
    MQTTClient.publish rawAliceClient "temp" "72" 0 =
      [Request.publish "temp" "72" 0] :=
  ⟨(publish_topic_spec aliceClient "temp" "72" 0).1 rfl,
    (publish_topic_spec rawAliceClient "temp" "72" 0).2 rfl⟩

/-- Claim C8: an absent (`None`) or empty-bytes payload decodes to the
empty string — never a missing-value failure — and the message trampoline
never raises a decode error for it; whenever the trampoline completes, the
raw-topic dispatch to the registered on_message callback carries the empty
string. -/
theorem absent_payload_spec (s : MQTTClient) (m : Msg)
    (hcb : s.on_message = true)
    (hp : m.payload = none ∨ m.payload = some []) :
    decodePayload m.payload = some "" ∧
    mqtt_message s m ≠ Except.error AdapterError.decodeError ∧
    (∀ evs, mqtt_message s m = Except.ok evs →
      CbEvent.onMessage m.topic "" ∈ evs) := by
  have hdec : decodePayload m.payload = some "" := by
    rcases hp with h | h <;> rw [h] <;> rfl
  have hraw : rawDispatch s m = Except.ok [CbEvent.onMessage m.topic ""] := by
    simp [rawDispatch, hcb, hdec]
  have hsderr : ∀ e, structuredDispatch s m = Except.error e →
      e = AdapterError.indexError := by
    intro e he
    unfold structuredDispatch at he
    by_cases hf : s.topic_fmt = "adafruit_fmt"
    · rw [if_pos hf] at he
      simp only [List.get?_eq_getElem?] at he
      rcases hg0 : (pySplit m.topic '/')[0]? with _ | p0 <;>
        simp only [hg0] at he
      · exact (Except.error.inj he).symm
      · by_cases hm : (s.on_message = true ∧ s.username = p0)
        · rw [if_pos hm] at he
          rcases hg2 : (pySplit m.topic '/')[2]? with _ | feed <;>
            simp only [hg2] at he
          · exact (Except.error.inj he).symm
          · rw [hdec] at he
            simp at he
        · rw [if_neg hm] at he
          simp at he
    · rw [if_neg hf] at he
      simp at he
  refine ⟨hdec, ?_, ?_⟩
  · intro hcontra
    unfold mqtt_message at hcontra
    rcases hsd : structuredDispatch s m with e | evs1 <;>
      rw [hsd] at hcontra
    · have he := hsderr e hsd
      simp [he] at hcontra
    · rw [hraw] at hcontra
      simp at hcontra
  · intro evs hevs
    unfold mqtt_message at hevs
    rcases hsd : structuredDispatch s m with e | evs1 <;>
      rw [hsd] at hevs
    · exact absurd hevs (by simp)
    · rw [hraw] at hevs
      simp at hevs
      simp [← hevs]

/-- Claim C8 witness: an absent payload on topic `"alice/feeds/temp"`. -/
theorem absent_payload_spec_witness :
    decodePayload absentTempMsg.payload = some "" ∧
    mqtt_message aliceClient absentTempMsg ≠
      Except.error AdapterError.decodeError ∧
    (∀ evs, mqtt_message aliceClient absentTempMsg = Except.ok evs →
      CbEvent.onMessage absentTempMsg.topic "" ∈ evs) :=
  absent_payload_spec aliceClient absentTempMsg rfl (Or.inl rfl)

/-- Claim C9: in structured mode, a message whose topic's first segment
equals the configured username but which has fewer than three segments
makes the trampoline fail with the generic indexing failure (Python
`IndexError` from `parsed_topic[2]`), which propagates to the caller of
the hook. -/
theorem malformed_topic_spec (s : MQTTClient) (m : Msg)
    (hfmt : s.topic_fmt = "adafruit_fmt")
    (hcb : s.on_message = true)
    (h0 : (pySplit m.topic '/')[0]? = some s.username)
    (hlen : (pySplit m.topic '/').length < 3) :
    mqtt_message s m = Except.error AdapterError.indexError := by
  have h2 : (pySplit m.topic '/')[2]? = none := by
    rw [List.getElem?_eq_none_iff]
    omega
  simp [mqtt_message, structuredDispatch, hfmt, hcb, h0, h2]

/-- Claim C9 witness: the two-segment topic `"alice/feeds"` with username
`alice`. -/
theorem malformed_topic_spec_witness :
    mqtt_message aliceClient shortTopicMsg =
      Except.error AdapterError.indexError :=
  malformed_topic_spec aliceClient shortTopicMsg
    rfl rfl (by decide) (by decide)

/-- Claim C10: with a topic format that is neither `"adafruit_fmt"` nor
`"rawmqtt_fmt"`, subscribe and publish forward no request at all to the
underlying engine, for every feed id, value and QoS level (their return
type has no error component because the source has no raise on this path:
both are silent no-ops). -/
theorem unknown_topic_fmt_noop (s : MQTTClient) (f v : String) (q : Nat)
    (h1 : s.topic_fmt ≠ "adafruit_fmt")
    (h2 : s.topic_fmt ≠ "rawmqtt_fmt") :
    MQTTClient.subscribe s f q = [] ∧ MQTTClient.publish s f v q = [] := by
  simp [MQTTClient.subscribe, MQTTClient.publish, h1, h2]

/-- Claim C10 witness: topic format `"mqtt_fmt"`, feed `"temp"`, value
`"72"`, QoS 0. -/
theorem unknown_topic_fmt_noop_witness :
    MQTTClient.subscribe bogusFmtClient "temp" 0 = [] ∧
    MQTTClient.publish bogusFmtClient "temp" "72" 0 = [] :=
  unknown_topic_fmt_noop bogusFmtClient "temp" "72" 0
    (by decide) (by decide)

end AdafruitIO
